import Mathlib

/-! rabbitrunr: the fleet orchestrator (`runr`)

A shallow embedding of `runr/container/container.go` and `runr/main.go`.

* Go `int` / `int64` values are `Int`; where the source does arithmetic that can
  leave the 64-bit range the result is reduced with `wrap64`.
* A Go `(string, error)` result is a pair `String × Option Error`.
* The Docker daemon is an arbitrary deterministic state machine `Docker σ`;
  every call the program issues is appended to the `calls` log of the `World`.
* Library functions that live outside the repository (`units.FromHumanSize`,
  `os.Getenv`, `uuid.NewV4`, `rand.Intn`) are fields of `Host`.
-/

namespace Runr

/-! ## Errors and machine integers -/

/-- Go `error` values that the program distinguishes.  `ErrNetworkAlreadyExists` is the
package-level sentinel of `container.go`; `fromProvider` is any error returned by a
library or by the daemon; `errorf` is an error built with `fmt.Errorf`. -/
inductive Error where
  | ErrNetworkAlreadyExists
  | fromProvider (msg : String)
  | errorf (msg : String)
  deriving DecidableEq, Repr

/-- Reduce an integer to the range of a Go `int` on a 64-bit target. -/
def wrap64 (x : Int) : Int := (x + 2 ^ 63) % 2 ^ 64 - 2 ^ 63

/-- The range of a Go `int` on a 64-bit target. -/
def isInt64 (x : Int) : Prop := -(2 ^ 63) ≤ x ∧ x < 2 ^ 63

instance (x : Int) : Decidable (isInt64 x) := by unfold isInt64; infer_instance

/-! ## Constants of `container.go` -/

def containerNamePreix : String := "runr"
def networkName : String := "rabbitrunr"
def defaultRabbitMQMemory : String := "500MB"
def defaultMessageSize : String := "1KB"
def maxMessageSize : String := "1MB"
def rabbitMQImage : String := "rabbitmq:3-management-alpine"
def publisherImage : String := "vuttamchandani/publisher"
def consumerImage : String := "vuttamchandani/consumer"

/-- `fmt.Sprintf("%s-rbmq", containerNamePreix)`. -/
def rbmqContainerName : String := containerNamePreix ++ "-rbmq"

/-- The `containerName` of `CreatePublisher`:
`fmt.Sprintf("%s-publisher-%s", containerNamePreix, name)`. -/
def publisherContainerName (name : String) : String :=
  containerNamePreix ++ "-publisher-" ++ name

/-- The `containerName` of `CreateConsumer`:
`fmt.Sprintf("%s-consumer-%s", containerNamePreix, name)`. -/
def consumerContainerName (name : String) : String :=
  containerNamePreix ++ "-consumer-" ++ name

/-- The three kinds of resource the orchestrator creates. -/
inductive Role where
  | broker
  | publisher
  | consumer
  deriving DecidableEq, Repr

/-- The container name each creation path of `container.go` passes to `createContainer`:
`CreateRabbitMQ` uses `rbmqContainerName` (the queue name plays no part),
`CreatePublisher` and `CreateConsumer` use their `containerName`. -/
def resourceName : Role → String → String
  | .broker, _ => rbmqContainerName
  | .publisher, name => publisherContainerName name
  | .consumer, name => consumerContainerName name

/-! ## `random` and `getMessageSize` -/

/-- `rand.Intn(n)`: panics when `n <= 0` (here `none`), otherwise returns the value
`draw n` chosen by the random source. -/
def Intn (draw : Int → Int) (n : Int) : Option Int :=
  if n ≤ 0 then none else some (draw n)

/-- A random source is admissible when `draw n` lies in `[0, n)` for every `n > 0`. -/
def validDraw (draw : Int → Int) : Prop := ∀ n : Int, 0 < n → 0 ≤ draw n ∧ draw n < n

/-- `random(min, max)`: `rand.Intn(max-min) + min` in 64-bit `int` arithmetic; `none` is the
panic of `rand.Intn`. -/
def random (draw : Int → Int) (min max : Int) : Option Int :=
  match Intn draw (wrap64 (max - min)) with
  | none => none
  | some r => some (wrap64 (r + min))

/-- `getMessageSize(msgSize)`, over the library parser `units.FromHumanSize`. The value
returned next to an error by the first parse is overwritten by the parse of
`defaultMessageSize`, whose own error is discarded (`size, _ =`). -/
def getMessageSize (FromHumanSize : String → Int × Option Error) (msgSize : String) : Int :=
  match FromHumanSize msgSize with
  | (_, some _) => (FromHumanSize defaultMessageSize).1
  | (size, none) => if size > 1000000 then 1000000 else size

/-! ## `getContainerName` of `main.go` -/

structure runrParams where
  MessageInterval : Int
  DeviceCount : Int
  MessageSize : String
  deriving DecidableEq, Repr

structure containerContext where
  RunrType : String
  QueueName : String
  deriving DecidableEq, Repr

/-- The `switch` of `getContainerName`: the zero value `""` survives when no case matches. -/
def getContainerName.switch (p : containerContext) : String :=
  if p.RunrType = "publisher" then "runr-publisher-" ++ p.QueueName
  else if p.RunrType = "consumer" then "runr-consumer-" ++ p.QueueName
  else ""

/-- `containerContext.getContainerName`. -/
def getContainerName (p : containerContext) : String × Option Error :=
  let containerName := getContainerName.switch p
  if containerName = "" then
    ("", some (.errorf ("Uknown runr type '" ++ p.RunrType ++ "'")))
  else
    (containerName, none)

/-! ## The Docker daemon, the host libraries and the program state -/

/-- An entry of `NetworkList`: only the fields the program reads or the daemon assigns. -/
structure NetworkResource where
  Name : String
  ID : String
  deriving DecidableEq, Repr

/-- What `createContainer` hands to `ContainerCreate`: the `container.Config`, the
`container.HostConfig` (port bindings are container port `tcp` to host port on `0.0.0.0`) and
the container name. -/
structure CreateRequest where
  Image : String
  Hostname : String
  Env : List String
  Labels : List (String × String)
  PortBindings : List (String × String)
  Memory : Int
  containerName : String
  deriving DecidableEq, Repr

/-- The calls the program issues on the Docker client. -/
inductive Call where
  | NetworkList
  | NetworkCreate (name : String)
  | ContainerCreate (req : CreateRequest)
  | NetworkConnect (networkID containerID : String) (links : List String)
  | ContainerStart (id : String)
  | ContainerStop (id : String)
  | ContainerRemove (id : String)
  deriving DecidableEq, Repr

/-- A logged call together with what the daemon returned for it: the error (`none` for `nil`)
and the id (`nw.ID` of `NetworkCreate`, `resp.ID` of `ContainerCreate`, empty for the calls
that return no id). -/
structure Event where
  call : Call
  err : Option Error
  id : String
  deriving DecidableEq, Repr

/-- The Docker daemon as a deterministic state machine over its own state `σ`. -/
structure Docker (σ : Type) where
  NetworkList : σ → σ × (List NetworkResource × Option Error)
  NetworkCreate : String → σ → σ × (String × Option Error)
  ContainerCreate : CreateRequest → σ → σ × (String × Option Error)
  NetworkConnect : String → String → List String → σ → σ × Option Error
  ContainerStart : String → σ → σ × Option Error
  ContainerStop : String → σ → σ × Option Error
  ContainerRemove : String → σ → σ × Option Error

/-- What the daemon does with one call: its next state and the event of that call, with the
error and the id the daemon returned. -/
def Docker.serve {σ : Type} (d : Docker σ) : Call → σ → σ × Event
  | .NetworkList, s => ((d.NetworkList s).1, ⟨.NetworkList, (d.NetworkList s).2.2, ""⟩)
  | .NetworkCreate name, s =>
    ((d.NetworkCreate name s).1,
     ⟨.NetworkCreate name, (d.NetworkCreate name s).2.2, (d.NetworkCreate name s).2.1⟩)
  | .ContainerCreate req, s =>
    ((d.ContainerCreate req s).1,
     ⟨.ContainerCreate req, (d.ContainerCreate req s).2.2, (d.ContainerCreate req s).2.1⟩)
  | .NetworkConnect networkID containerID links, s =>
    ((d.NetworkConnect networkID containerID links s).1,
     ⟨.NetworkConnect networkID containerID links,
      (d.NetworkConnect networkID containerID links s).2, ""⟩)
  | .ContainerStart id, s =>
    ((d.ContainerStart id s).1, ⟨.ContainerStart id, (d.ContainerStart id s).2, ""⟩)
  | .ContainerStop id, s =>
    ((d.ContainerStop id s).1, ⟨.ContainerStop id, (d.ContainerStop id s).2, ""⟩)
  | .ContainerRemove id, s =>
    ((d.ContainerRemove id s).1, ⟨.ContainerRemove id, (d.ContainerRemove id s).2, ""⟩)

/-- The daemon serving a sequence of calls from state `s`: its final state and, per call, the
event with what it returned. This is the daemon on its own, without the program. -/
def Docker.replay {σ : Type} (d : Docker σ) : List Call → σ → σ × List Event
  | [], s => (s, [])
  | c :: rest, s =>
    ((d.replay rest (d.serve c s).1).1, (d.serve c s).2 :: (d.replay rest (d.serve c s).1).2)

/-- Library functions and process environment used by the program: `units.FromHumanSize`,
`os.Getenv`, the `k`-th value of `uuid.NewV4().String()` and the `k`-th random source
behind `rand.Intn`. -/
structure Host where
  FromHumanSize : String → Int × Option Error
  Getenv : String → String
  NewV4 : Nat → String
  draw : Nat → Int → Int

/-- Program state: the daemon, the package-level slice `containers` of package `container`
(the registry), the package-level slice `containers` of package `main`, the log of daemon
calls, and how many uuids and random numbers have been drawn. -/
structure World (σ : Type) where
  daemon : σ
  containers : List String
  mainContainers : List String
  calls : List Event
  uuids : Nat
  draws : Nat

/-- How a Go function ends: a normal return, a panic, or `log.Fatal` (the process exits). -/
inductive Ret (α : Type) where
  | ret (a : α)
  | panic
  | fatal (e : Error)
  deriving DecidableEq, Repr

/-- `var containers = make([]string, 50)`: a slice of length 50 holding fifty empty strings.
Package `main` declares its own `containers` without an initial value (`nil`). -/
def World.init {σ : Type} (s : σ) : World σ :=
  { daemon := s
    containers := List.replicate 50 ""
    mainContainers := []
    calls := []
    uuids := 0
    draws := 0 }

section Program

variable {σ : Type}

/-! ## Package `container` -/

/-- The `for _, n := range networks` of `CreateNetwork`. -/
def CreateNetwork.found (networks : List NetworkResource) : Bool :=
  networks.any (fun n => n.Name = networkName)

/-- `CreateNetwork`. -/
def CreateNetwork (d : Docker σ) (w : World σ) : World σ × (String × Option Error) :=
  match d.NetworkList w.daemon with
  | (s1, (networks, err)) =>
    let w1 := { w with daemon := s1, calls := w.calls ++ [⟨.NetworkList, err, ""⟩] }
    match err with
    | some e => (w1, ("", some e))
    | none =>
      if CreateNetwork.found networks then
        (w1, ("", some .ErrNetworkAlreadyExists))
      else
        match d.NetworkCreate networkName s1 with
        | (s2, (nwID, err2)) =>
          let w2 := { w1 with daemon := s2
                              calls := w1.calls ++ [⟨.NetworkCreate networkName, err2, nwID⟩] }
          match err2 with
          | some e => (w2, ("", some e))
          | none => (w2, (nwID, none))

/-- The `containerConfig`, `hostConfig` and name that `createContainer` builds for
`ContainerCreate`: `hostConfig.Memory` is set only `if memory > 0`, and the container name is
the `hostname` argument. -/
def createContainer.request (image hostname : String) (labels : List (String × String))
    (envs : List String) (portBindings : List (String × String)) (memory : Int) : CreateRequest :=
  { Image := image, Hostname := hostname, Env := envs, Labels := labels,
    PortBindings := portBindings, Memory := if memory > 0 then memory else 0,
    containerName := hostname }

/-- `createContainer`. The error of `NetworkConnect` is assigned to `err` and never read; the
id is appended to `containers` whenever `ContainerCreate` succeeded. -/
def createContainer (d : Docker σ) (image hostname : String) (labels : List (String × String))
    (links envs : List String) (portBindings : List (String × String)) (memory : Int)
    (w : World σ) : World σ × (String × Option Error) :=
  let req := createContainer.request image hostname labels envs portBindings memory
  match d.ContainerCreate req w.daemon with
  | (s1, (respID, err)) =>
    let w1 := { w with daemon := s1, calls := w.calls ++ [⟨.ContainerCreate req, err, respID⟩] }
    match err with
    | some e => (w1, ("", some e))
    | none =>
      match d.NetworkConnect networkName respID links s1 with
      | (s2, err2) =>
        ({ w1 with daemon := s2
                   calls := w1.calls ++ [⟨.NetworkConnect networkName respID links, err2, ""⟩]
                   containers := w1.containers ++ [respID] },
         (respID, none))

/-- `CreateRabbitMQ`. -/
def CreateRabbitMQ (h : Host) (d : Docker σ) (w : World σ) : World σ × (String × Option Error) :=
  let portBindings := [("15672", "15612"), ("5672", "5612")]
  let memory :=
    match h.FromHumanSize (h.Getenv "rbmq-memory") with
    | (_, some _) => (h.FromHumanSize defaultRabbitMQMemory).1
    | (m, none) => m
  createContainer d rabbitMQImage rbmqContainerName [] [] [] portBindings memory w

/-- The `envs` of `CreatePublisher`: `qname=%s`, `msg-interval=%d`, `msg-size=%v`. -/
def CreatePublisher.envs (name : String) (interval size : Int) : List String :=
  ["qname=" ++ name, "msg-interval=" ++ toString interval, "msg-size=" ++ toString size]

/-- `CreatePublisher`. -/
def CreatePublisher (h : Host) (d : Docker σ) (name msgSize : String) (w : World σ) :
    World σ × Ret (String × Option Error) :=
  let links := [rbmqContainerName ++ ":rbmq"]
  let w0 := { w with draws := w.draws + 1 }
  match random (h.draw w.draws) 1 5 with
  | none => (w0, .panic)
  | some interval =>
    let envs := CreatePublisher.envs name interval (getMessageSize h.FromHumanSize msgSize)
    match createContainer d publisherImage (publisherContainerName name) [] links envs [] 0 w0 with
    | (w1, r) => (w1, .ret r)

/-- `CreateConsumer`. -/
def CreateConsumer (d : Docker σ) (name : String) (w : World σ) :
    World σ × (String × Option Error) :=
  let links := [rbmqContainerName ++ ":rbmq"]
  let envs := ["qname=" ++ name]
  createContainer d consumerImage (consumerContainerName name) [] links envs [] 0 w

/-- `Start`. -/
def Start (d : Docker σ) (id : String) (w : World σ) : World σ × Option Error :=
  match d.ContainerStart id w.daemon with
  | (s1, err) => ({ w with daemon := s1, calls := w.calls ++ [⟨.ContainerStart id, err, ""⟩] }, err)

/-- `Stop` (the one-minute timeout is a constant of the call). -/
def Stop (d : Docker σ) (id : String) (w : World σ) : World σ × Option Error :=
  match d.ContainerStop id w.daemon with
  | (s1, err) => ({ w with daemon := s1, calls := w.calls ++ [⟨.ContainerStop id, err, ""⟩] }, err)

/-- `remove`. -/
def remove (d : Docker σ) (id : String) (w : World σ) : World σ × Option Error :=
  match d.ContainerRemove id w.daemon with
  | (s1, err) => ({ w with daemon := s1, calls := w.calls ++ [⟨.ContainerRemove id, err, ""⟩] }, err)

/-- The `for _, c := range containers` of `Destroy`, carrying `couldNotDestroy`. -/
def Destroy.sweep (d : Docker σ) : List String → World σ → List String → World σ × List String
  | [], w, couldNotDestroy => (w, couldNotDestroy)
  | c :: rest, w, couldNotDestroy =>
    match Stop d c w with
    | (w1, err1) =>
      let cnd1 := if err1.isSome then couldNotDestroy ++ [c] else couldNotDestroy
      match remove d c w1 with
      | (w2, err2) =>
        let cnd2 := if err2.isSome then cnd1 ++ [c] else cnd1
        Destroy.sweep d rest w2 cnd2

/-- `fmt.Sprintf("Total containers = %d. Total removed = %d", a, b)`. -/
def Destroy.message (a b : Int) : String :=
  "Total containers = " ++ toString a ++ ". Total removed = " ++ toString b

/-- `Destroy`. -/
def Destroy (d : Docker σ) (w : World σ) : World σ × String :=
  match Destroy.sweep d w.containers w [] with
  | (w1, couldNotDestroy) =>
    let totalContainers : Int := w1.containers.length
    ({ w1 with containers := w1.containers.take 0 },
     Destroy.message totalContainers (totalContainers - couldNotDestroy.length))

/-! ## Package `main` -/

/-- The function `initialize` of `main.go`, from `id, err := container.CreateRabbitMQ()` to
its end. -/
def initializeRunr.broker (h : Host) (d : Docker σ) (w1 : World σ) : World σ × Option Error :=
  match CreateRabbitMQ h d w1 with
  | (w2, (_, some e)) => (w2, some e)
  | (w2, (id, none)) =>
    let w3 := { w2 with mainContainers := w2.mainContainers ++ [id] }
    Start d id w3

/-- The function `initialize` of `main.go`: `ErrNetworkAlreadyExists` is logged and passed
over, any other error of `CreateNetwork` is returned. -/
def initializeRunr (h : Host) (d : Docker σ) (w : World σ) : World σ × Option Error :=
  match CreateNetwork d w with
  | (w1, (_, some e)) =>
    if e = .ErrNetworkAlreadyExists then initializeRunr.broker h d w1 else (w1, some e)
  | (w1, (_, none)) => initializeRunr.broker h d w1

/-- `createPQC`. -/
def createPQC (h : Host) (d : Docker σ) (p : runrParams) (w : World σ) : World σ × Ret Unit :=
  let qname := h.NewV4 w.uuids
  let w0 := { w with uuids := w.uuids + 1 }
  match CreatePublisher h d qname p.MessageSize w0 with
  | (w1, .panic) => (w1, .panic)
  | (w1, .fatal e) => (w1, .fatal e)
  | (w1, .ret (_, some err)) => (w1, .fatal err)
  | (w1, .ret (id, none)) =>
    match Start d id w1 with
    | (w2, some err) => (w2, .fatal err)
    | (w2, none) =>
      match CreateConsumer d qname w2 with
      | (w3, (_, some err)) => (w3, .fatal err)
      | (w3, (_, none)) => (w3, .ret ())

/-- The `for i := 0; i < p.DeviceCount; i++` of `handleRunr`, with the iterations left. -/
def handleRunr.loop (h : Host) (d : Docker σ) (p : runrParams) : Nat → World σ → World σ × Ret Unit
  | 0, w => (w, .ret ())
  | k + 1, w =>
    match createPQC h d p w with
    | (w1, .ret _) => handleRunr.loop h d p k w1
    | (w1, .panic) => (w1, .panic)
    | (w1, .fatal e) => (w1, .fatal e)

/-- `handleRunr`, after `c.BindJSON(&p)`; the response is the status code and the body. -/
def handleRunr (h : Host) (d : Docker σ) (p : runrParams) (w : World σ) :
    World σ × Ret (Nat × String) :=
  match handleRunr.loop h d p p.DeviceCount.toNat w with
  | (w1, .ret _) =>
    (w1, .ret (201, toString p.DeviceCount ++ " publishers, queues, and consumers created"))
  | (w1, .panic) => (w1, .panic)
  | (w1, .fatal e) => (w1, .fatal e)

/-- `handleDestroy`: the response is the status code and the message of `Destroy`. -/
def handleDestroy (d : Docker σ) (w : World σ) : World σ × (Nat × String) :=
  match Destroy d w with
  | (w1, msg) => (w1, (200, msg))

end Program

/-! ## A concrete daemon

The state of `simDocker` is a set of networks; its list and create calls on networks always
succeed. A container call fails exactly when its argument is listed in the matching field of
the fault plan. -/

structure Faults where
  failCreate : List String
  failStart : List String
  failStop : List String
  failRemove : List String
  deriving DecidableEq, Repr

/-- The fault plan under which every container call succeeds. -/
def Faults.healthy : Faults :=
  { failCreate := [], failStart := [], failStop := [], failRemove := [] }

def Faults.check (l : List String) (x : String) : Option Error :=
  if x ∈ l then some (.fromProvider "daemon error") else none

def simDocker (f : Faults) : Docker (List NetworkResource) where
  NetworkList := fun s => (s, (s, none))
  NetworkCreate := fun name s => (s ++ [⟨name, "net-" ++ name⟩], ("net-" ++ name, none))
  ContainerCreate := fun req s =>
    match Faults.check f.failCreate req.containerName with
    | some e => (s, ("", some e))
    | none => (s, ("id-" ++ req.containerName, none))
  NetworkConnect := fun _ _ _ s => (s, none)
  ContainerStart := fun id s => (s, Faults.check f.failStart id)
  ContainerStop := fun id s => (s, Faults.check f.failStop id)
  ContainerRemove := fun id s => (s, Faults.check f.failRemove id)

/-! ## A concrete host -/

/-- The decimal multiplier `units.FromHumanSize` attaches to a unit letter. -/
def decimalUnit (c : Char) : Option Int :=
  if c = 'k' ∨ c = 'K' then some 1000
  else if c = 'm' ∨ c = 'M' then some 1000000
  else if c = 'g' ∨ c = 'G' then some 1000000000
  else if c = 't' ∨ c = 'T' then some 1000000000000
  else if c = 'p' ∨ c = 'P' then some 1000000000000000
  else none

/-- Read a run of decimal digits: the value read so far and the rest of the input. -/
def readDigits : List Char → Nat → Nat × List Char
  | [], acc => (acc, [])
  | c :: cs, acc =>
    if c.isDigit then readDigits cs (acc * 10 + (c.toNat - '0'.toNat)) else (acc, c :: cs)

/-- Drop one leading character when it satisfies `p`. -/
def dropOne (p : Char → Bool) : List Char → List Char
  | [] => []
  | c :: cs => if p c then cs else c :: cs

/-- The whole-number fragment of `units.FromHumanSize`: digits, an optional blank, an optional
unit letter, an optional `i`, an optional `b`. Anything else is an error with value `-1`;
sizes with a fractional part, which the library reads as floating point, are not in this
fragment. It serves as the parser of the concrete host `sampleHost`. -/
def sampleFromHumanSize (s : String) : Int × Option Error :=
  match s.data with
  | [] => (-1, some (.fromProvider "invalid size"))
  | c :: cs =>
    if c.isDigit then
      match readDigits (c :: cs) 0 with
      | (n, rest) =>
        let rest1 := dropOne (fun x => x = ' ') rest
        let mul : Int := match rest1.head? with
          | some u => (decimalUnit u).getD 1
          | none => 1
        let rest2 := dropOne (fun x => (decimalUnit x).isSome) rest1
        let rest3 := dropOne (fun x => x = 'i' ∨ x = 'I') rest2
        let rest4 := dropOne (fun x => x = 'b' ∨ x = 'B') rest3
        if rest4 = [] then ((n : Int) * mul, none)
        else (-1, some (.fromProvider "invalid size"))
    else (-1, some (.fromProvider "invalid size"))

/-- The random source that always picks the largest admissible value. -/
def lastDraw (n : Int) : Int := n - 1

/-- A host: no `rbmq-memory` in the environment, queue names `q0`, `q1`, ..., and the random
source `lastDraw`. -/
def sampleHost : Host where
  FromHumanSize := sampleFromHumanSize
  Getenv := fun _ => ""
  NewV4 := fun k => "q" ++ toString k
  draw := fun _ => lastDraw

/-- The program at start-up, facing a daemon without networks. -/
def freshWorld : World (List NetworkResource) := World.init []

/-- The scenario of one broker and three devices: `initialize`, then a scale-out request with
`device-count` 3, on the healthy daemon. -/
def scenarioWorld : World (List NetworkResource) :=
  (handleRunr sampleHost (simDocker Faults.healthy) ⟨0, 3, "1KB"⟩
    (initializeRunr sampleHost (simDocker Faults.healthy) freshWorld).1).1

/-- A registry of two ids, as left by two creates after an earlier teardown. -/
def twoIds : World (List NetworkResource) := { freshWorld with containers := ["a", "b"] }

/-- The daemon refuses both to stop and to remove the container `a`. -/
def stuckA : Faults := { Faults.healthy with failStop := ["a"], failRemove := ["a"] }

/-! ## Reading the call log -/

/-- The requests of the `ContainerCreate` calls in a log, in order. -/
def createRequests (l : List Event) : List CreateRequest :=
  l.filterMap (fun e => match e.call with
    | .ContainerCreate req => some req
    | _ => none)

/-- The container names of the `ContainerCreate` calls in a log, in order. -/
def createdNames (l : List Event) : List String :=
  (createRequests l).map (fun req => req.containerName)

/-- The containers the daemon created according to a log, in order: the name asked for and the
id returned, for every `ContainerCreate` that returned no error. -/
def created (l : List Event) : List (String × String) :=
  l.filterMap (fun e => match e.call, e.err with
    | .ContainerCreate req, none => some (req.containerName, e.id)
    | _, _ => none)

/-- The ids on which `ContainerStart` was called in a log, in order. -/
def startedIds (l : List Event) : List String :=
  l.filterMap (fun e => match e.call with
    | .ContainerStart id => some id
    | _ => none)

/-- The number of `NetworkCreate` calls in a log. -/
def networkCreates (l : List Event) : Nat :=
  l.countP (fun e => match e.call with
    | .NetworkCreate _ => true
    | _ => false)

/-- The number of calls in a log that returned an error. -/
def failedCalls (l : List Event) : Nat := l.countP (fun e => e.err.isSome)

/-- A `ContainerCreate` call that returned an error. -/
def Event.createFailed (e : Event) : Bool :=
  match e.call with
  | .ContainerCreate _ => e.err.isSome
  | _ => false

/-- A `ContainerStart` call that returned an error. -/
def Event.startFailed (e : Event) : Bool :=
  match e.call with
  | .ContainerStart _ => e.err.isSome
  | _ => false

/-- The calls a sweep over the ids issues when nothing is skipped: stop, then remove, per id. -/
def sweepCalls (ids : List String) : List Call :=
  ids.flatMap (fun c => [Call.ContainerStop c, Call.ContainerRemove c])

/-- The container names a scale-out of `k` devices asks for when the next queue name is the
`s`-th uuid: a publisher and a consumer per queue name. -/
def pairNames (h : Host) : Nat → Nat → List String
  | _, 0 => []
  | s, k + 1 =>
    publisherContainerName (h.NewV4 s) :: consumerContainerName (h.NewV4 s) :: pairNames h (s + 1) k

/-- The events a program run appended to the log it started from. -/
def newCalls {σ : Type} (before after : World σ) : List Event :=
  after.calls.drop before.calls.length

/-- A program run from `w` to `w1` added the events `new` to the log, and these are what the
daemon itself does with their calls from its state in `w`: it returns those errors and ids and
ends in its state in `w1`. -/
def Traces {σ : Type} (d : Docker σ) (w w1 : World σ) (new : List Event) : Prop :=
  w1.calls = w.calls ++ new ∧ d.replay (new.map Event.call) w.daemon = (w1.daemon, new)

/-! ## Lemmas -/

theorem wrap64_of_isInt64 {x : Int} (h : isInt64 x) : wrap64 x = x := by
  unfold isInt64 at h
  unfold wrap64
  norm_num at h ⊢
  omega

theorem validDraw_lastDraw : validDraw lastDraw := by
  intro n hn
  simp only [lastDraw]
  omega

theorem random_one_five (draw : Int → Int) : random draw 1 5 = some (wrap64 (draw 4 + 1)) := by
  have h4 : wrap64 (5 - 1) = 4 := by decide
  unfold random Intn
  rw [h4]
  rfl

theorem publisherContainerName_data (n : String) :
    (publisherContainerName n).data = "runr-publisher-".data ++ n.data := by
  simp [publisherContainerName, containerNamePreix, String.data_append]

theorem consumerContainerName_data (n : String) :
    (consumerContainerName n).data = "runr-consumer-".data ++ n.data := by
  simp [consumerContainerName, containerNamePreix, String.data_append]

theorem publisherContainerName_inj {n1 n2 : String}
    (h : publisherContainerName n1 = publisherContainerName n2) : n1 = n2 := by
  have hd := congrArg String.data h
  rw [publisherContainerName_data, publisherContainerName_data] at hd
  exact String.ext (List.append_cancel_left hd)

theorem consumerContainerName_inj {n1 n2 : String}
    (h : consumerContainerName n1 = consumerContainerName n2) : n1 = n2 := by
  have hd := congrArg String.data h
  rw [consumerContainerName_data, consumerContainerName_data] at hd
  exact String.ext (List.append_cancel_left hd)

theorem publisher_ne_consumer (n1 n2 : String) :
    publisherContainerName n1 ≠ consumerContainerName n2 := by
  intro h
  have hd := congrArg String.data h
  rw [publisherContainerName_data, consumerContainerName_data] at hd
  simp at hd

theorem publisher_ne_rbmq (n : String) : publisherContainerName n ≠ rbmqContainerName := by
  intro h
  have hd := congrArg String.data h
  rw [publisherContainerName_data] at hd
  simp [rbmqContainerName, containerNamePreix, String.data_append] at hd

theorem consumer_ne_rbmq (n : String) : consumerContainerName n ≠ rbmqContainerName := by
  intro h
  have hd := congrArg String.data h
  rw [consumerContainerName_data] at hd
  simp [rbmqContainerName, containerNamePreix, String.data_append] at hd

section SweepLemmas

variable {σ : Type}

theorem failedCalls_append (a b : List Event) :
    failedCalls (a ++ b) = failedCalls a + failedCalls b := by
  simp [failedCalls, List.countP_append]

theorem Stop_calls (d : Docker σ) (c : String) (w : World σ) :
    (Stop d c w).1.calls = w.calls ++ [⟨.ContainerStop c, (Stop d c w).2, ""⟩] := by
  simp [Stop]

theorem Stop_containers (d : Docker σ) (c : String) (w : World σ) :
    (Stop d c w).1.containers = w.containers := by
  simp [Stop]

theorem remove_calls (d : Docker σ) (c : String) (w : World σ) :
    (remove d c w).1.calls = w.calls ++ [⟨.ContainerRemove c, (remove d c w).2, ""⟩] := by
  simp [remove]

theorem remove_containers (d : Docker σ) (c : String) (w : World σ) :
    (remove d c w).1.containers = w.containers := by
  simp [remove]

theorem Start_calls (d : Docker σ) (c : String) (w : World σ) :
    (Start d c w).1.calls = w.calls ++ [⟨.ContainerStart c, (Start d c w).2, ""⟩] := by
  simp [Start]

theorem Start_containers (d : Docker σ) (c : String) (w : World σ) :
    (Start d c w).1.containers = w.containers := by
  simp [Start]

theorem replay_append (d : Docker σ) (a b : List Call) (s : σ) :
    d.replay (a ++ b) s =
      ((d.replay b (d.replay a s).1).1, (d.replay a s).2 ++ (d.replay b (d.replay a s).1).2) := by
  induction a generalizing s with
  | nil => simp [Docker.replay]
  | cons c rest ih => simp [Docker.replay, ih]

theorem Traces.refl (d : Docker σ) (w : World σ) : Traces d w w [] := by
  simp [Traces, Docker.replay]

theorem Traces.trans {d : Docker σ} {w w1 w2 : World σ} {a b : List Event}
    (ha : Traces d w w1 a) (hb : Traces d w1 w2 b) : Traces d w w2 (a ++ b) := by
  refine ⟨by rw [hb.1, ha.1, List.append_assoc], ?_⟩
  rw [List.map_append, replay_append, ha.2]
  simp only [hb.2]

theorem Traces.newCalls {d : Docker σ} {w w1 : World σ} {new : List Event}
    (h : Traces d w w1 new) : newCalls w w1 = new := by
  simp [Runr.newCalls, h.1]

theorem Stop_traces (d : Docker σ) (c : String) (w : World σ) :
    Traces d w (Stop d c w).1 [⟨.ContainerStop c, (Stop d c w).2, ""⟩] := by
  simp [Traces, Docker.replay, Docker.serve, Stop]

theorem remove_traces (d : Docker σ) (c : String) (w : World σ) :
    Traces d w (remove d c w).1 [⟨.ContainerRemove c, (remove d c w).2, ""⟩] := by
  simp [Traces, Docker.replay, Docker.serve, remove]

theorem Start_traces (d : Docker σ) (c : String) (w : World σ) :
    Traces d w (Start d c w).1 [⟨.ContainerStart c, (Start d c w).2, ""⟩] := by
  simp [Traces, Docker.replay, Docker.serve, Start]

theorem sweep_cons (d : Docker σ) (c : String) (rest : List String) (w : World σ)
    (acc : List String) :
    Destroy.sweep d (c :: rest) w acc =
      Destroy.sweep d rest (remove d c (Stop d c w).1).1
        (if (remove d c (Stop d c w).1).2.isSome
          then (if (Stop d c w).2.isSome then acc ++ [c] else acc) ++ [c]
          else (if (Stop d c w).2.isSome then acc ++ [c] else acc)) := by
  simp [Destroy.sweep]

theorem sweep_containers (d : Docker σ) (ids : List String) (w : World σ) (acc : List String) :
    (Destroy.sweep d ids w acc).1.containers = w.containers := by
  induction ids generalizing w acc with
  | nil => simp [Destroy.sweep]
  | cons c rest ih => rw [sweep_cons, ih, remove_containers, Stop_containers]

theorem sweep_calls (d : Docker σ) (ids : List String) (w : World σ) (acc : List String) :
    (Destroy.sweep d ids w acc).1.calls.map Event.call =
      w.calls.map Event.call ++ sweepCalls ids := by
  induction ids generalizing w acc with
  | nil => simp [Destroy.sweep, sweepCalls]
  | cons c rest ih =>
    rw [sweep_cons, ih, remove_calls, Stop_calls]
    simp [sweepCalls]

/-- The sweep drives the daemon through stop, remove for each id in order, and logs what the
daemon returned. -/
theorem sweep_traces (d : Docker σ) (ids : List String) (w : World σ) (acc : List String) :
    ∃ new, Traces d w (Destroy.sweep d ids w acc).1 new ∧ new.map Event.call = sweepCalls ids := by
  induction ids generalizing w acc with
  | nil => exact ⟨[], by simpa [Destroy.sweep] using Traces.refl d w, by simp [sweepCalls]⟩
  | cons c rest ih =>
    rw [sweep_cons]
    obtain ⟨new, hT, hcalls⟩ := ih (remove d c (Stop d c w).1).1
      (if (remove d c (Stop d c w).1).2.isSome
          then (if (Stop d c w).2.isSome then acc ++ [c] else acc) ++ [c]
          else (if (Stop d c w).2.isSome then acc ++ [c] else acc))
    refine ⟨_, ((Stop_traces d c w).trans (remove_traces d c (Stop d c w).1)).trans hT, ?_⟩
    simp [sweepCalls, hcalls]

theorem sweep_count (d : Docker σ) (ids : List String) (w : World σ) (acc : List String) :
    (Destroy.sweep d ids w acc).2.length + failedCalls w.calls =
      acc.length + failedCalls (Destroy.sweep d ids w acc).1.calls := by
  induction ids generalizing w acc with
  | nil => simp [Destroy.sweep, Nat.add_comm]
  | cons c rest ih =>
    rw [sweep_cons]
    have h := ih (remove d c (Stop d c w).1).1
      (if (remove d c (Stop d c w).1).2.isSome
          then (if (Stop d c w).2.isSome then acc ++ [c] else acc) ++ [c]
          else (if (Stop d c w).2.isSome then acc ++ [c] else acc))
    rw [remove_calls, Stop_calls, failedCalls_append, failedCalls_append] at h
    generalize Destroy.sweep d rest (remove d c (Stop d c w).1).1 _ = R at h ⊢
    generalize (remove d c (Stop d c w).1).2 = e2 at h
    generalize (Stop d c w).2 = e1 at h
    cases e1 <;> cases e2 <;> simp [failedCalls] at h ⊢ <;> omega

end SweepLemmas

section CreateContainerLemmas

variable {σ : Type}

theorem createContainer_of_err (d : Docker σ) (image hostname : String)
    (labels : List (String × String)) (links envs : List String)
    (portBindings : List (String × String)) (memory : Int) (w : World σ)
    (s1 : σ) (id : String) (e : Error)
    (hc : d.ContainerCreate
      (createContainer.request image hostname labels envs portBindings memory) w.daemon =
        (s1, id, some e)) :
    createContainer d image hostname labels links envs portBindings memory w =
      ({ w with daemon := s1
                calls := w.calls ++ [⟨.ContainerCreate
                  (createContainer.request image hostname labels envs portBindings memory),
                  some e, id⟩] }, ("", some e)) := by
  unfold createContainer
  simp only [hc]

theorem createContainer_of_ok (d : Docker σ) (image hostname : String)
    (labels : List (String × String)) (links envs : List String)
    (portBindings : List (String × String)) (memory : Int) (w : World σ)
    (s1 s2 : σ) (id : String) (e2 : Option Error)
    (hc : d.ContainerCreate
      (createContainer.request image hostname labels envs portBindings memory) w.daemon =
        (s1, id, none))
    (hn : d.NetworkConnect networkName id links s1 = (s2, e2)) :
    createContainer d image hostname labels links envs portBindings memory w =
      ({ daemon := s2, containers := w.containers ++ [id],
         mainContainers := w.mainContainers,
         calls := w.calls ++ [⟨.ContainerCreate
                  (createContainer.request image hostname labels envs portBindings memory),
                  none, id⟩,
                  ⟨.NetworkConnect networkName id links, e2, ""⟩],
         uuids := w.uuids, draws := w.draws }, (id, none)) := by
  unfold createContainer
  simp only [hc, hn, List.append_assoc, List.singleton_append]

/-- What `createContainer` does, by the outcome of `ContainerCreate`. -/
theorem createContainer_cases (d : Docker σ) (image hostname : String)
    (labels : List (String × String)) (links envs : List String)
    (portBindings : List (String × String)) (memory : Int) (w : World σ) :
    (createContainer d image hostname labels links envs portBindings memory w).1.uuids = w.uuids ∧
    (createContainer d image hostname labels links envs portBindings memory w).1.draws = w.draws ∧
    ((∃ id e2, (createContainer d image hostname labels links envs portBindings memory w).2 =
          (id, none) ∧
        (createContainer d image hostname labels links envs portBindings memory w).1.containers =
          w.containers ++ [id] ∧
        Traces d w (createContainer d image hostname labels links envs portBindings memory w).1
          [⟨.ContainerCreate
              (createContainer.request image hostname labels envs portBindings memory),
              none, id⟩,
            ⟨.NetworkConnect networkName id links, e2, ""⟩]) ∨
     (∃ e id, (createContainer d image hostname labels links envs portBindings memory w).2 =
          ("", some e) ∧
        (createContainer d image hostname labels links envs portBindings memory w).1.containers =
          w.containers ∧
        Traces d w (createContainer d image hostname labels links envs portBindings memory w).1
          [⟨.ContainerCreate
            (createContainer.request image hostname labels envs portBindings memory),
            some e, id⟩])) := by
  rcases hc : d.ContainerCreate
    (createContainer.request image hostname labels envs portBindings memory) w.daemon
    with ⟨s1, id, err⟩
  cases err with
  | some e =>
    rw [createContainer_of_err d image hostname labels links envs portBindings memory w s1 id e hc]
    refine ⟨rfl, rfl, Or.inr ⟨e, id, rfl, rfl, rfl, ?_⟩⟩
    simp [Docker.replay, Docker.serve, hc]
  | none =>
    rcases hn : d.NetworkConnect networkName id links s1 with ⟨s2, e2⟩
    rw [createContainer_of_ok d image hostname labels links envs portBindings memory w s1 s2 id e2
      hc hn]
    refine ⟨rfl, rfl, Or.inl ⟨id, e2, rfl, rfl, rfl, ?_⟩⟩
    simp [Docker.replay, Docker.serve, hc, hn]

end CreateContainerLemmas

section CreatePQCLemmas

variable {σ : Type}

theorem createRequests_append (a b : List Event) :
    createRequests (a ++ b) = createRequests a ++ createRequests b := by
  simp [createRequests, List.filterMap_append]

theorem createdNames_append (a b : List Event) :
    createdNames (a ++ b) = createdNames a ++ createdNames b := by
  simp [createdNames, createRequests_append]

theorem created_append (a b : List Event) : created (a ++ b) = created a ++ created b := by
  simp [created, List.filterMap_append]

theorem newCalls_append (w w1 : World σ) (new : List Event) (h : w1.calls = w.calls ++ new) :
    newCalls w w1 = new := by
  simp [newCalls, h]

theorem CreatePublisher_eq (h : Host) (d : Docker σ) (name msgSize : String) (w : World σ) :
    CreatePublisher h d name msgSize w =
      ((createContainer d publisherImage (publisherContainerName name) []
          [rbmqContainerName ++ ":rbmq"]
          (CreatePublisher.envs name (wrap64 (h.draw w.draws 4 + 1))
            (getMessageSize h.FromHumanSize msgSize)) [] 0
          { w with draws := w.draws + 1 }).1,
       .ret (createContainer d publisherImage (publisherContainerName name) []
          [rbmqContainerName ++ ":rbmq"]
          (CreatePublisher.envs name (wrap64 (h.draw w.draws 4 + 1))
            (getMessageSize h.FromHumanSize msgSize)) [] 0
          { w with draws := w.draws + 1 }).2) := by
  unfold CreatePublisher
  simp only [random_one_five]

theorem CreateConsumer_eq (d : Docker σ) (name : String) (w : World σ) :
    CreateConsumer d name w =
      createContainer d consumerImage (consumerContainerName name) []
        [rbmqContainerName ++ ":rbmq"] ["qname=" ++ name] [] 0 w := rfl

/-- The events of one `createPQC` and its effect on the registry, by outcome. -/
theorem createPQC_cases (h : Host) (d : Docker σ) (p : runrParams) (w : World σ) :
    ∃ new, Traces d w (createPQC h d p w).1 new ∧
      (createPQC h d p w).1.containers = w.containers ++ (created new).map Prod.snd ∧
      (((createPQC h d p w).2 = .ret () ∧
          (createPQC h d p w).1.uuids = w.uuids + 1 ∧
          (created new).map Prod.fst = [publisherContainerName (h.NewV4 w.uuids),
                                        consumerContainerName (h.NewV4 w.uuids)] ∧
          createdNames new = [publisherContainerName (h.NewV4 w.uuids),
                              consumerContainerName (h.NewV4 w.uuids)] ∧
          (∀ e ∈ new, e.createFailed = false ∧ e.startFailed = false)) ∨
       ((∃ e, (createPQC h d p w).2 = .fatal e) ∧
          ∃ ev ∈ new, ev.createFailed = true ∨ ev.startFailed = true)) := by
  unfold createPQC
  simp only [CreatePublisher_eq]
  obtain ⟨hU, -, hP⟩ := createContainer_cases d publisherImage
    (publisherContainerName (h.NewV4 w.uuids)) [] [rbmqContainerName ++ ":rbmq"]
    (CreatePublisher.envs (h.NewV4 w.uuids) (wrap64 (h.draw w.draws 4 + 1))
      (getMessageSize h.FromHumanSize p.MessageSize)) [] 0
    { w with uuids := w.uuids + 1, draws := w.draws + 1 }
  generalize createContainer d publisherImage
    (publisherContainerName (h.NewV4 w.uuids)) [] [rbmqContainerName ++ ":rbmq"]
    (CreatePublisher.envs (h.NewV4 w.uuids) (wrap64 (h.draw w.draws 4 + 1))
      (getMessageSize h.FromHumanSize p.MessageSize)) [] 0
    { w with uuids := w.uuids + 1, draws := w.draws + 1 } = R1 at hP hU ⊢
  obtain ⟨W1, r1⟩ := R1
  simp only at hP hU ⊢
  rcases hP with ⟨id1, e2, hr, hcont, hT1⟩ | ⟨e, id0, hr, hcont, hT1⟩
  · subst hr
    simp only
    have hT1w : Traces d w W1 _ := hT1
    have hST := Start_traces d id1 W1
    have hSk := Start_containers d id1 W1
    have hSu : (Start d id1 W1).1.uuids = W1.uuids := by simp [Start]
    generalize Start d id1 W1 = S at hST hSk hSu ⊢
    obtain ⟨W2, es⟩ := S
    simp only at hST hSk hSu ⊢
    cases es with
    | some err =>
      refine ⟨_, hT1w.trans hST, ?_, Or.inr ?_⟩
      · rw [hSk, hcont]
        simp [created]
      · refine ⟨⟨err, rfl⟩, ⟨.ContainerStart id1, some err, ""⟩, by simp, Or.inr ?_⟩
        simp [Event.startFailed]
    | none =>
      obtain ⟨hCu, -, hC⟩ := createContainer_cases d consumerImage
        (consumerContainerName (h.NewV4 w.uuids)) [] [rbmqContainerName ++ ":rbmq"]
        ["qname=" ++ h.NewV4 w.uuids] [] 0 W2
      simp only [CreateConsumer_eq]
      generalize createContainer d consumerImage
        (consumerContainerName (h.NewV4 w.uuids)) [] [rbmqContainerName ++ ":rbmq"]
        ["qname=" ++ h.NewV4 w.uuids] [] 0 W2 = R3 at hC hCu ⊢
      obtain ⟨W3, r3⟩ := R3
      simp only at hC hCu ⊢
      rcases hC with ⟨id2, e4, hr3, hcont3, hT3⟩ | ⟨e, id3, hr3, hcont3, hT3⟩
      · subst hr3
        refine ⟨_, (hT1w.trans hST).trans hT3, ?_, Or.inl ?_⟩
        · rw [hcont3, hSk, hcont]
          simp [created]
        · refine ⟨rfl, by rw [hCu, hSu, hU], ?_, ?_, ?_⟩
          · simp [created, createContainer.request]
          · simp [createdNames, createRequests, createContainer.request]
          · intro e he
            simp at he
            rcases he with rfl | rfl | rfl | rfl | rfl <;>
              simp [Event.createFailed, Event.startFailed]
      · subst hr3
        refine ⟨_, (hT1w.trans hST).trans hT3, ?_, Or.inr ?_⟩
        · rw [hcont3, hSk, hcont]
          simp [created]
        · refine ⟨⟨e, rfl⟩, ⟨.ContainerCreate (createContainer.request consumerImage
            (consumerContainerName (h.NewV4 w.uuids)) [] ["qname=" ++ h.NewV4 w.uuids] [] 0),
            some e, id3⟩, by simp, Or.inl ?_⟩
          simp [Event.createFailed]
  · subst hr
    have hT1w : Traces d w W1 _ := hT1
    refine ⟨_, hT1w, ?_, Or.inr ?_⟩
    · rw [hcont]
      simp [created]
    · refine ⟨⟨e, rfl⟩, ⟨.ContainerCreate (createContainer.request publisherImage
        (publisherContainerName (h.NewV4 w.uuids)) []
        (CreatePublisher.envs (h.NewV4 w.uuids) (wrap64 (h.draw w.draws 4 + 1))
          (getMessageSize h.FromHumanSize p.MessageSize)) [] 0), some e, id0⟩, by simp, Or.inl ?_⟩
      simp [Event.createFailed]

end CreatePQCLemmas

section LoopLemmas

variable {σ : Type}

theorem pairNames_length (h : Host) (s k : Nat) : (pairNames h s k).length = 2 * k := by
  induction k generalizing s with
  | zero => simp [pairNames]
  | succ k ih =>
    simp only [pairNames, List.length_cons, ih]
    ring

/-- The events of the scale-out loop and its effect on the registry, by outcome. -/
theorem loop_cases (h : Host) (d : Docker σ) (p : runrParams) (k : Nat) (w : World σ) :
    ∃ new, Traces d w (handleRunr.loop h d p k w).1 new ∧
      (handleRunr.loop h d p k w).1.containers = w.containers ++ (created new).map Prod.snd ∧
      (((handleRunr.loop h d p k w).2 = .ret () ∧
          (created new).map Prod.fst = pairNames h w.uuids k ∧
          createdNames new = pairNames h w.uuids k ∧
          (∀ e ∈ new, e.createFailed = false ∧ e.startFailed = false)) ∨
       ((∃ e, (handleRunr.loop h d p k w).2 = .fatal e) ∧
          ∃ ev ∈ new, ev.createFailed = true ∨ ev.startFailed = true)) := by
  induction k generalizing w with
  | zero =>
    refine ⟨[], by simpa [handleRunr.loop] using Traces.refl d w, by simp [handleRunr.loop, created],
      Or.inl ?_⟩
    simp [handleRunr.loop, pairNames, createdNames, createRequests, created]
  | succ k ih =>
    obtain ⟨new1, hT1, hk1, hcase⟩ := createPQC_cases h d p w
    rw [handleRunr.loop]
    generalize createPQC h d p w = R at hT1 hk1 hcase ⊢
    obtain ⟨W1, r⟩ := R
    simp only at hT1 hk1 hcase ⊢
    rcases hcase with ⟨hr, hu, hpairs, hnames, hok⟩ | ⟨⟨e, hr⟩, ev, hev, hfail⟩
    · subst hr
      simp only
      obtain ⟨new2, hT2, hk2, hcase2⟩ := ih W1
      refine ⟨new1 ++ new2, hT1.trans hT2, ?_, ?_⟩
      · rw [hk2, hk1, created_append, List.map_append, List.append_assoc]
      rcases hcase2 with ⟨hr2, hpairs2, hnames2, hok2⟩ | ⟨hr2, ev, hev, hfail⟩
      · refine Or.inl ⟨hr2, ?_, ?_, ?_⟩
        · rw [created_append, List.map_append, hpairs, hpairs2, hu]
          rfl
        · rw [createdNames_append, hnames, hnames2, hu]
          rfl
        · intro e he
          rcases List.mem_append.1 he with he | he
          · exact hok e he
          · exact hok2 e he
      · exact Or.inr ⟨hr2, ev, List.mem_append_right _ hev, hfail⟩
    · subst hr
      exact ⟨new1, hT1, hk1, Or.inr ⟨⟨e, rfl⟩, ev, hev, hfail⟩⟩

theorem handleRunr_fst (h : Host) (d : Docker σ) (p : runrParams) (w : World σ) :
    (handleRunr h d p w).1 = (handleRunr.loop h d p p.DeviceCount.toNat w).1 := by
  unfold handleRunr
  split <;> simp_all

theorem handleRunr_ret (h : Host) (d : Docker σ) (p : runrParams) (w : World σ)
    (hr : (handleRunr.loop h d p p.DeviceCount.toNat w).2 = .ret ()) :
    (handleRunr h d p w).2 =
      .ret (201, toString p.DeviceCount ++ " publishers, queues, and consumers created") := by
  unfold handleRunr
  split <;> simp_all

end LoopLemmas

section RequestLemmas

variable {σ : Type}

theorem createContainer_createRequests (d : Docker σ) (image hostname : String)
    (labels : List (String × String)) (links envs : List String)
    (portBindings : List (String × String)) (memory : Int) (w : World σ) :
    createRequests
        (newCalls w (createContainer d image hostname labels links envs portBindings memory w).1) =
      [createContainer.request image hostname labels envs portBindings memory] := by
  obtain ⟨-, -, hc⟩ := createContainer_cases d image hostname labels links envs portBindings memory w
  rcases hc with ⟨id, e2, -, -, hT⟩ | ⟨e, id, -, -, hT⟩
  · rw [hT.newCalls]
    simp [createRequests]
  · rw [hT.newCalls]
    simp [createRequests]

theorem CreatePublisher_createRequests (h : Host) (d : Docker σ) (name msgSize : String)
    (w : World σ) :
    createRequests (newCalls w (CreatePublisher h d name msgSize w).1) =
      [createContainer.request publisherImage (publisherContainerName name) []
        (CreatePublisher.envs name (wrap64 (h.draw w.draws 4 + 1))
          (getMessageSize h.FromHumanSize msgSize)) [] 0] := by
  rw [CreatePublisher_eq]
  exact createContainer_createRequests d publisherImage (publisherContainerName name) []
    [rbmqContainerName ++ ":rbmq"] _ [] 0 { w with draws := w.draws + 1 }

theorem CreateConsumer_createRequests (d : Docker σ) (name : String) (w : World σ) :
    createRequests (newCalls w (CreateConsumer d name w).1) =
      [createContainer.request consumerImage (consumerContainerName name) []
        ["qname=" ++ name] [] 0] := by
  rw [CreateConsumer_eq]
  exact createContainer_createRequests d consumerImage (consumerContainerName name) []
    [rbmqContainerName ++ ":rbmq"] _ [] 0 w

/-- What `Destroy` reports for an arbitrary daemon: the registry length, and that length less
the number of stop and remove calls that returned an error. -/
theorem Destroy_message (d : Docker σ) (w : World σ) :
    (Destroy d w).2 = Destroy.message w.containers.length
      (w.containers.length - ((failedCalls (Destroy d w).1.calls : Int) - failedCalls w.calls)) := by
  have hk := sweep_containers d w.containers w []
  have hc := sweep_count d w.containers w []
  unfold Destroy
  generalize Destroy.sweep d w.containers w [] = R at hk hc ⊢
  obtain ⟨W1, cnd⟩ := R
  simp only at hk hc ⊢
  rw [hk]
  congr 1
  simp only [List.length_nil, Nat.zero_add] at hc
  omega

end RequestLemmas

set_option maxRecDepth 100000

/-! ## The claims -/

/-- C3 (amended). For every `n >= 0` and every prior registry content, a scale-out request
(`handleRunr`) with `deviceCount = n` in which every `ContainerCreate` and every
`ContainerStart` succeeds returns status 201 and appends to the registry exactly the `2n` ids
the daemon returned for the containers it created, in order: per fresh queue name the id of the
publisher container and the id of the consumer container (`n` publisher ids, `n` consumer
ids). The entries already recorded are unchanged, and the logged events are what the daemon
itself returns for these calls. -/
theorem handleRunr_appends_pairs {σ : Type} (h : Host) (d : Docker σ) (p : runrParams)
    (w : World σ) (hn : 0 ≤ p.DeviceCount)
    (hok : ∀ e ∈ newCalls w (handleRunr h d p w).1,
      e.createFailed = false ∧ e.startFailed = false) :
    (handleRunr h d p w).1.containers =
      w.containers ++ (created (newCalls w (handleRunr h d p w).1)).map Prod.snd ∧
    (created (newCalls w (handleRunr h d p w).1)).map Prod.fst =
      pairNames h w.uuids p.DeviceCount.toNat ∧
    (((created (newCalls w (handleRunr h d p w).1)).map Prod.snd).length : Int) =
      2 * p.DeviceCount ∧
    d.replay ((newCalls w (handleRunr h d p w).1).map Event.call) w.daemon =
      ((handleRunr h d p w).1.daemon, newCalls w (handleRunr h d p w).1) ∧
    (handleRunr h d p w).1.calls = w.calls ++ newCalls w (handleRunr h d p w).1 ∧
    createdNames (newCalls w (handleRunr h d p w).1) = pairNames h w.uuids p.DeviceCount.toNat ∧
    (handleRunr h d p w).2 =
      .ret (201, toString p.DeviceCount ++ " publishers, queues, and consumers created") := by
  obtain ⟨new, hT, hk, hcase⟩ := loop_cases h d p p.DeviceCount.toNat w
  have hnew : newCalls w (handleRunr h d p w).1 = new := by
    rw [handleRunr_fst]
    exact hT.newCalls
  rw [hnew] at hok ⊢
  rcases hcase with ⟨hr, hpairs, hnames, -⟩ | ⟨-, ev, hev, hfail⟩
  · refine ⟨by rw [handleRunr_fst, hk], hpairs, ?_, ?_, ?_, hnames, handleRunr_ret h d p w hr⟩
    · have hlen : ((created new).map Prod.snd).length = 2 * p.DeviceCount.toNat := by
        rw [List.length_map, ← List.length_map (created new) Prod.fst, hpairs, pairNames_length]
      rw [hlen]
      push_cast
      rw [Int.toNat_of_nonneg hn]
    · rw [handleRunr_fst]
      exact hT.2
    · rw [handleRunr_fst]
      exact hT.1
  · have := hok ev hev
    rcases hfail with hf | hf <;> simp [hf] at this

/-- Witness for C3: two devices on the healthy daemon. -/
theorem handleRunr_appends_pairs_witness :
    (handleRunr sampleHost (simDocker Faults.healthy) ⟨0, 2, "1KB"⟩ freshWorld).1.containers =
      freshWorld.containers ++ ["id-runr-publisher-q0", "id-runr-consumer-q0",
        "id-runr-publisher-q1", "id-runr-consumer-q1"] ∧
    (created (newCalls freshWorld (handleRunr sampleHost (simDocker Faults.healthy)
        ⟨0, 2, "1KB"⟩ freshWorld).1)).map Prod.fst =
      ["runr-publisher-q0", "runr-consumer-q0", "runr-publisher-q1", "runr-consumer-q1"] ∧
    (handleRunr sampleHost (simDocker Faults.healthy) ⟨0, 2, "1KB"⟩ freshWorld).2 =
      .ret (201, "2 publishers, queues, and consumers created") :=
  ⟨(handleRunr_appends_pairs sampleHost (simDocker Faults.healthy) ⟨0, 2, "1KB"⟩ freshWorld
      (by decide) (by decide)).1.trans (by decide),
   (handleRunr_appends_pairs sampleHost (simDocker Faults.healthy) ⟨0, 2, "1KB"⟩ freshWorld
      (by decide) (by decide)).2.1,
   (handleRunr_appends_pairs sampleHost (simDocker Faults.healthy) ⟨0, 2, "1KB"⟩ freshWorld
      (by decide) (by decide)).2.2.2.2.2.2⟩

/-- Counterexample for C3 as stated: every create succeeds, yet the publisher's start fails, the
process exits through `log.Fatal`, and one entry, not two, has been appended. -/
theorem handleRunr_creates_ok_not_enough :
    ¬ (∀ (h : Host) (d : Docker (List NetworkResource)) (p : runrParams)
        (w : World (List NetworkResource)), 0 ≤ p.DeviceCount →
        (∀ e ∈ newCalls w (handleRunr h d p w).1, e.createFailed = false) →
        ∃ added, (handleRunr h d p w).1.containers = w.containers ++ added ∧
          (added.length : Int) = 2 * p.DeviceCount) := by
  intro hall
  obtain ⟨added, hcont, hlen⟩ := hall sampleHost
    (simDocker { Faults.healthy with failStart := ["id-runr-publisher-q0"] })
    ⟨0, 1, "1KB"⟩ freshWorld (by decide) (by decide)
  have h1 : (handleRunr sampleHost
      (simDocker { Faults.healthy with failStart := ["id-runr-publisher-q0"] })
      ⟨0, 1, "1KB"⟩ freshWorld).1.containers =
      freshWorld.containers ++ ["id-runr-publisher-q0"] := by decide
  rw [h1] at hcont
  have h2 := List.append_cancel_left hcont
  rw [← h2] at hlen
  simp at hlen

/-- C1 (failing input). Registry `a`, `b`; the daemon fails both the stop and the remove of
`a` and serves `b`. One id out of two failed, so one was removed, yet `Destroy` reports
`Total removed = 0`: the id `a` entered `couldNotDestroy` twice. -/
theorem Destroy_counts_failed_id_twice :
    (Destroy (simDocker stuckA) twoIds).2 = "Total containers = 2. Total removed = 0" ∧
    (newCalls twoIds (Destroy (simDocker stuckA) twoIds).1).map (fun e => (e.call, e.err.isSome)) =
      [(.ContainerStop "a", true), (.ContainerRemove "a", true),
       (.ContainerStop "b", false), (.ContainerRemove "b", false)] := by
  decide

/-- C2 (failing input). From the initial program state, `initialize` and a scale-out of three
devices succeed on the healthy daemon; the registry then holds 57 entries, the fifty empty
strings of `make([]string, 50)` followed by the seven created ids, and `Destroy` reports 57
containers attempted and removed before leaving the registry empty. -/
theorem scenario_registry_has_57_entries :
    (initializeRunr sampleHost (simDocker Faults.healthy) freshWorld).2 = none ∧
    (handleRunr sampleHost (simDocker Faults.healthy) ⟨0, 3, "1KB"⟩
      (initializeRunr sampleHost (simDocker Faults.healthy) freshWorld).1).2 =
      .ret (201, "3 publishers, queues, and consumers created") ∧
    scenarioWorld.containers.length = 57 ∧
    scenarioWorld.containers = List.replicate 50 "" ++
      ["id-runr-rbmq", "id-runr-publisher-q0", "id-runr-consumer-q0", "id-runr-publisher-q1",
       "id-runr-consumer-q1", "id-runr-publisher-q2", "id-runr-consumer-q2"] ∧
    (∀ e ∈ newCalls scenarioWorld (Destroy (simDocker Faults.healthy) scenarioWorld).1,
      e.err = none) ∧
    (Destroy (simDocker Faults.healthy) scenarioWorld).2 =
      "Total containers = 57. Total removed = 57" ∧
    (Destroy (simDocker Faults.healthy) scenarioWorld).1.containers = [] := by
  decide

/-- C4. For every daemon, registry content and pattern of stop/remove failures, `Destroy`
drives the daemon through exactly the calls stop then remove for each recorded id, once each,
in insertion order (no remove skipped, no early end): the daemon ends in the state these calls
leave it in, the events `Destroy` adds to the log are these calls with the error the daemon
returned for each, and the registry is empty afterwards. -/
theorem Destroy_sweeps_every_id {σ : Type} (d : Docker σ) (w : World σ) :
    d.replay (sweepCalls w.containers) w.daemon =
      ((Destroy d w).1.daemon, newCalls w (Destroy d w).1) ∧
    (Destroy d w).1.calls = w.calls ++ newCalls w (Destroy d w).1 ∧
    (Destroy d w).1.calls.map Event.call = w.calls.map Event.call ++ sweepCalls w.containers ∧
    (Destroy d w).1.containers = [] := by
  obtain ⟨new, hT, hcalls⟩ := sweep_traces d w.containers w []
  have hc := sweep_calls d w.containers w []
  unfold Destroy
  generalize Destroy.sweep d w.containers w [] = R at hT hc ⊢
  obtain ⟨W1, cnd⟩ := R
  obtain ⟨hT1, hT2⟩ := hT
  rw [hcalls] at hT2
  simp only at hT1 hT2 hc ⊢
  have hnew : List.drop w.calls.length W1.calls = new := by simp [hT1]
  refine ⟨?_, ?_, hc, by simp⟩
  · rw [hT2]
    simp only [newCalls, hnew]
  · simp only [newCalls, hnew]
    exact hT1

/-- C5. Over any parser standing for `units.FromHumanSize` that reads `1KB` as 1000:
`getMessageSize s` is 1000 when the parse of `s` fails, 1,000,000 when the parsed value
exceeds 1,000,000, and the parsed value otherwise; it never exceeds 1,000,000; and `2MB`,
`bogus`, `500B` give 1,000,000, 1000 and 500 once the parser reads them as 2,000,000, an error
and 500. -/
theorem getMessageSize_spec (parse : String → Int × Option Error)
    (hdef : (parse defaultMessageSize).1 = 1000) :
    (∀ s, ((parse s).2.isSome → getMessageSize parse s = 1000) ∧
          ((parse s).2 = none → (parse s).1 > 1000000 → getMessageSize parse s = 1000000) ∧
          ((parse s).2 = none → (parse s).1 ≤ 1000000 → getMessageSize parse s = (parse s).1) ∧
          getMessageSize parse s ≤ 1000000) ∧
    (parse "2MB" = (2000000, none) → getMessageSize parse "2MB" = 1000000) ∧
    ((parse "bogus").2.isSome → getMessageSize parse "bogus" = 1000) ∧
    (parse "500B" = (500, none) → getMessageSize parse "500B" = 500) := by
  have key : ∀ s, ((parse s).2.isSome → getMessageSize parse s = 1000) ∧
      ((parse s).2 = none → (parse s).1 > 1000000 → getMessageSize parse s = 1000000) ∧
      ((parse s).2 = none → (parse s).1 ≤ 1000000 → getMessageSize parse s = (parse s).1) ∧
      getMessageSize parse s ≤ 1000000 := by
    intro s
    unfold getMessageSize
    rcases hp : parse s with ⟨size, err⟩
    cases err with
    | some e => simp [hdef]
    | none =>
      by_cases hs : size > 1000000
      · simp [hs]
      · simp [hs]
        omega
  refine ⟨key, ?_, ?_, ?_⟩
  · intro h2
    exact (key "2MB").2.1 (by rw [h2]) (by rw [h2]; decide)
  · intro hb
    exact (key "bogus").1 hb
  · intro h5
    have := (key "500B").2.2.1 (by rw [h5]) (by rw [h5]; decide)
    rw [this, h5]

/-- Witness for C5: the whole-number parser of the sample host. -/
theorem getMessageSize_spec_witness :
    (sampleFromHumanSize defaultMessageSize).1 = 1000 ∧
    getMessageSize sampleFromHumanSize "2MB" = 1000000 ∧
    getMessageSize sampleFromHumanSize "bogus" = 1000 ∧
    getMessageSize sampleFromHumanSize "500B" = 500 ∧
    getMessageSize sampleFromHumanSize "999999999999GB" ≤ 1000000 :=
  ⟨by decide,
   (getMessageSize_spec sampleFromHumanSize (by decide)).2.1 (by decide),
   (getMessageSize_spec sampleFromHumanSize (by decide)).2.2.1 (by decide),
   (getMessageSize_spec sampleFromHumanSize (by decide)).2.2.2 (by decide),
   ((getMessageSize_spec sampleFromHumanSize (by decide)).1 "999999999999GB").2.2.2⟩

/-- C6 (failing input). One `createPQC` on the healthy daemon: the publisher and the consumer
are created under the same queue name `q0` and both ids are recorded, but `ContainerStart` is
called once only, on the publisher id; the consumer is never started. -/
theorem createPQC_never_starts_consumer :
    (createPQC sampleHost (simDocker Faults.healthy) ⟨0, 1, "1KB"⟩ freshWorld).2 = .ret () ∧
    (∀ e ∈ newCalls freshWorld
        (createPQC sampleHost (simDocker Faults.healthy) ⟨0, 1, "1KB"⟩ freshWorld).1,
      e.err = none) ∧
    createdNames (newCalls freshWorld
        (createPQC sampleHost (simDocker Faults.healthy) ⟨0, 1, "1KB"⟩ freshWorld).1) =
      [publisherContainerName "q0", consumerContainerName "q0"] ∧
    (createPQC sampleHost (simDocker Faults.healthy) ⟨0, 1, "1KB"⟩ freshWorld).1.containers =
      freshWorld.containers ++ ["id-runr-publisher-q0", "id-runr-consumer-q0"] ∧
    startedIds (newCalls freshWorld
        (createPQC sampleHost (simDocker Faults.healthy) ⟨0, 1, "1KB"⟩ freshWorld).1) =
      ["id-runr-publisher-q0"] ∧
    "id-runr-consumer-q0" ∉ startedIds
        (createPQC sampleHost (simDocker Faults.healthy) ⟨0, 1, "1KB"⟩ freshWorld).1.calls := by
  decide

/-- C7. The resource name determines the role and, for publisher and consumer, the queue name;
a publisher name is never a consumer name, and neither is ever the broker name. -/
theorem resourceName_injective :
    (∀ (r1 r2 : Role) (n1 n2 : String), resourceName r1 n1 = resourceName r2 n2 →
      r1 = r2 ∧ (r1 ≠ Role.broker → n1 = n2)) ∧
    (∀ n : String, publisherContainerName n ≠ consumerContainerName n) ∧
    (∀ n : String, publisherContainerName n ≠ rbmqContainerName ∧
      consumerContainerName n ≠ rbmqContainerName) := by
  refine ⟨?_, fun n => publisher_ne_consumer n n, fun n => ⟨publisher_ne_rbmq n, consumer_ne_rbmq n⟩⟩
  intro r1 r2 n1 n2 h
  cases r1 <;> cases r2 <;> simp only [resourceName] at h
  · exact ⟨rfl, fun hb => absurd rfl hb⟩
  · exact absurd h.symm (publisher_ne_rbmq n2)
  · exact absurd h.symm (consumer_ne_rbmq n2)
  · exact absurd h (publisher_ne_rbmq n1)
  · exact ⟨rfl, fun _ => publisherContainerName_inj h⟩
  · exact absurd h (publisher_ne_consumer n1 n2)
  · exact absurd h (consumer_ne_rbmq n1)
  · exact absurd h.symm (publisher_ne_consumer n2 n1)
  · exact ⟨rfl, fun _ => consumerContainerName_inj h⟩

/-- Witness for C7: two equal consumer names. -/
theorem resourceName_injective_witness :
    resourceName .consumer "q7" = resourceName .consumer "q7" ∧
    (Role.consumer = Role.consumer ∧ (Role.consumer ≠ Role.broker → "q7" = "q7")) :=
  ⟨rfl, resourceName_injective.1 .consumer .consumer "q7" "q7" rfl⟩

/-- C8. `getContainerName` returns an error exactly when `runr-type` is neither `publisher`
nor `consumer`, whatever the queue name; when it succeeds the name is the container name that
`CreatePublisher`, respectively `CreateConsumer`, hands to the daemon for that queue name. -/
theorem getContainerName_spec (p : containerContext) :
    ((getContainerName p).2.isSome ↔ (p.RunrType ≠ "publisher" ∧ p.RunrType ≠ "consumer")) ∧
    (p.RunrType = "publisher" →
      getContainerName p = (publisherContainerName p.QueueName, none) ∧
      ∀ {σ : Type} (h : Host) (d : Docker σ) (msgSize : String) (w : World σ),
        createdNames (newCalls w (CreatePublisher h d p.QueueName msgSize w).1) =
          [(getContainerName p).1]) ∧
    (p.RunrType = "consumer" →
      getContainerName p = (consumerContainerName p.QueueName, none) ∧
      ∀ {σ : Type} (d : Docker σ) (w : World σ),
        createdNames (newCalls w (CreateConsumer d p.QueueName w).1) =
          [(getContainerName p).1]) := by
  have hpub : ("runr-publisher-" ++ p.QueueName) = publisherContainerName p.QueueName := by
    apply String.ext
    rw [publisherContainerName_data, String.data_append]
  have hcon : ("runr-consumer-" ++ p.QueueName) = consumerContainerName p.QueueName := by
    apply String.ext
    rw [consumerContainerName_data, String.data_append]
  have hpne : publisherContainerName p.QueueName ≠ "" := by
    intro h
    have hd := congrArg String.data h
    rw [publisherContainerName_data] at hd
    simp at hd
  have hcne : consumerContainerName p.QueueName ≠ "" := by
    intro h
    have hd := congrArg String.data h
    rw [consumerContainerName_data] at hd
    simp at hd
  have hP : p.RunrType = "publisher" →
      getContainerName p = (publisherContainerName p.QueueName, none) := by
    intro ht
    simp [getContainerName, getContainerName.switch, ht, hpub, hpne]
  have hC : p.RunrType = "consumer" →
      getContainerName p = (consumerContainerName p.QueueName, none) := by
    intro ht
    simp [getContainerName, getContainerName.switch, ht, hcon, hcne]
  refine ⟨?_, ?_, ?_⟩
  · by_cases h1 : p.RunrType = "publisher"
    · simp [hP h1, h1]
    · by_cases h2 : p.RunrType = "consumer"
      · simp [hC h2, h2]
      · simp [getContainerName, getContainerName.switch, h1, h2]
  · intro ht
    refine ⟨hP ht, ?_⟩
    intro σ h d msgSize w
    rw [hP ht, createdNames, CreatePublisher_createRequests]
    rfl
  · intro ht
    refine ⟨hC ht, ?_⟩
    intro σ d w
    rw [hC ht, createdNames, CreateConsumer_createRequests]
    rfl

/-- Witness for C8: a stop request for the publisher of queue `q0`. -/
theorem getContainerName_spec_witness :
    getContainerName ⟨"publisher", "q0"⟩ = ("runr-publisher-q0", none) ∧
    createdNames (newCalls freshWorld
      (CreatePublisher sampleHost (simDocker Faults.healthy) "q0" "1KB" freshWorld).1) =
        [(getContainerName ⟨"publisher", "q0"⟩).1] ∧
    (getContainerName ⟨"broker", "q0"⟩).2.isSome :=
  ⟨((getContainerName_spec ⟨"publisher", "q0"⟩).2.1 rfl).1,
   ((getContainerName_spec ⟨"publisher", "q0"⟩).2.1 rfl).2 sampleHost (simDocker Faults.healthy)
      "1KB" freshWorld,
   (getContainerName_spec ⟨"broker", "q0"⟩).1.2 (by decide)⟩

/-- C9. Over the daemon modelled as a set of networks: when no network is named `rabbitrunr`,
`CreateNetwork` issues exactly one create call, the daemon then holds a new network of that
name, and the call returns its id with no error; a second `CreateNetwork` right after returns
`ErrNetworkAlreadyExists` with an empty id and issues no create call. -/
theorem CreateNetwork_twice (f : Faults) (w : World (List NetworkResource))
    (hno : ∀ n ∈ w.daemon, n.Name ≠ networkName) :
    (CreateNetwork (simDocker f) w).2.2 = none ∧
    (CreateNetwork (simDocker f) w).1.daemon =
      w.daemon ++ [⟨networkName, (CreateNetwork (simDocker f) w).2.1⟩] ∧
    networkCreates (newCalls w (CreateNetwork (simDocker f) w).1) = 1 ∧
    (CreateNetwork (simDocker f) (CreateNetwork (simDocker f) w).1).2 =
      ("", some .ErrNetworkAlreadyExists) ∧
    networkCreates (newCalls (CreateNetwork (simDocker f) w).1
      (CreateNetwork (simDocker f) (CreateNetwork (simDocker f) w).1).1) = 0 := by
  have hfound : CreateNetwork.found w.daemon = false := by
    simp only [CreateNetwork.found, List.any_eq_false]
    intro n hn
    simpa using hno n hn
  have h1 : CreateNetwork (simDocker f) w =
      ({ w with daemon := w.daemon ++ [⟨networkName, "net-" ++ networkName⟩]
                calls := w.calls ++ [⟨.NetworkList, none, ""⟩,
                  ⟨.NetworkCreate networkName, none, "net-" ++ networkName⟩] },
       ("net-" ++ networkName, none)) := by
    simp [CreateNetwork, simDocker, hfound]
  have hfound2 : CreateNetwork.found (w.daemon ++ [⟨networkName, "net-" ++ networkName⟩]) =
      true := by
    simp [CreateNetwork.found]
  have h2 : CreateNetwork (simDocker f) (CreateNetwork (simDocker f) w).1 =
      ({ (CreateNetwork (simDocker f) w).1 with
          calls := (CreateNetwork (simDocker f) w).1.calls ++ [⟨.NetworkList, none, ""⟩] },
       ("", some .ErrNetworkAlreadyExists)) := by
    rw [h1]
    simp [CreateNetwork, simDocker, hfound2]
  rw [h2, h1]
  refine ⟨rfl, rfl, ?_, rfl, ?_⟩
  · simp [newCalls, networkCreates]
  · simp [newCalls, networkCreates]

/-- Witness for C9: the program at start-up on a daemon without networks. -/
theorem CreateNetwork_twice_witness :
    (CreateNetwork (simDocker Faults.healthy) freshWorld).2 = ("net-rabbitrunr", none) ∧
    networkCreates (newCalls freshWorld (CreateNetwork (simDocker Faults.healthy) freshWorld).1)
      = 1 ∧
    (CreateNetwork (simDocker Faults.healthy)
      (CreateNetwork (simDocker Faults.healthy) freshWorld).1).2 =
      ("", some .ErrNetworkAlreadyExists) :=
  ⟨by decide,
   (CreateNetwork_twice Faults.healthy freshWorld (by decide)).2.2.1,
   (CreateNetwork_twice Faults.healthy freshWorld (by decide)).2.2.2.1⟩

/-- C10 (amended). For every outcome of the random source, `random(1, 5)` returns an integer
`v` with `1 <= v < 5`, and that `v` is the `msg-interval` value `CreatePublisher` injects;
more generally, for all 64-bit `min < max` whose difference `max - min` fits a 64-bit `int`,
`random(min, max)` returns a `v` with `min <= v < max`. -/
theorem random_in_range (draw : Int → Int) (hd : validDraw draw) :
    (∃ v, random draw 1 5 = some v ∧ 1 ≤ v ∧ v < 5 ∧
      ∀ {σ : Type} (h : Host) (d : Docker σ) (name msgSize : String) (w : World σ),
        h.draw w.draws = draw →
        (createRequests (newCalls w (CreatePublisher h d name msgSize w).1)).map
            (fun req => req.Env.get? 1) = [some ("msg-interval=" ++ toString v)]) ∧
    (∀ min max : Int, isInt64 min → isInt64 max → min < max → max - min < 2 ^ 63 →
      ∃ v, random draw min max = some v ∧ min ≤ v ∧ v < max) := by
  constructor
  · have h4 := hd 4 (by decide)
    have hw : wrap64 (draw 4 + 1) = draw 4 + 1 := by
      apply wrap64_of_isInt64
      unfold isInt64
      constructor <;> norm_num <;> omega
    refine ⟨draw 4 + 1, by rw [random_one_five, hw], by omega, by omega, ?_⟩
    intro σ h d name msgSize w hdraw
    rw [CreatePublisher_createRequests, hdraw, hw]
    rfl
  · intro min max hmin hmax hlt hfit
    have hdiff : wrap64 (max - min) = max - min := by
      apply wrap64_of_isInt64
      unfold isInt64 at *
      constructor <;> norm_num at * <;> omega
    have hr := hd (max - min) (by omega)
    have hsum : wrap64 (draw (max - min) + min) = draw (max - min) + min := by
      apply wrap64_of_isInt64
      unfold isInt64 at *
      constructor <;> norm_num at * <;> omega
    refine ⟨draw (max - min) + min, ?_, by omega, by omega⟩
    unfold random Intn
    rw [hdiff, if_neg (by omega)]
    simp only [hsum]

/-- Witness for C10: the random source that always picks the largest admissible value, and
the publisher the sample host creates with it. -/
theorem random_in_range_witness :
    validDraw lastDraw ∧
    (∃ v, random lastDraw 1 5 = some v ∧ 1 ≤ v ∧ v < 5 ∧
      (createRequests (newCalls freshWorld
        (CreatePublisher sampleHost (simDocker Faults.healthy) "q0" "1KB" freshWorld).1)).map
          (fun req => req.Env.get? 1) = [some ("msg-interval=" ++ toString v)]) ∧
    (∃ v, random lastDraw (-3) 4 = some v ∧ -3 ≤ v ∧ v < 4) :=
  ⟨validDraw_lastDraw,
   (random_in_range lastDraw validDraw_lastDraw).1.imp
     (fun _ hv => ⟨hv.1, hv.2.1, hv.2.2.1,
       hv.2.2.2 sampleHost (simDocker Faults.healthy) "q0" "1KB" freshWorld rfl⟩),
   (random_in_range lastDraw validDraw_lastDraw).2 (-3) 4
     (by decide) (by decide) (by decide) (by decide)⟩

/-- Counterexample for C10 as stated: with `min` the least 64-bit integer and `max = 0` the
difference `max - min` wraps to a negative number, `rand.Intn` panics and `random` returns no
value. -/
theorem random_overflow_panics :
    ¬ (∀ draw : Int → Int, validDraw draw → ∀ min max : Int, isInt64 min → isInt64 max →
        min < max → ∃ v, random draw min max = some v ∧ min ≤ v ∧ v < max) := by
  intro hall
  obtain ⟨v, hv, -⟩ := hall lastDraw validDraw_lastDraw
    (-9223372036854775808) 0 (by decide) (by decide) (by decide)
  have hnone : random lastDraw (-9223372036854775808) 0 = none := by decide
  rw [hnone] at hv
  exact Option.noConfusion hv

end Runr
